import Mathlib

/-!
Verification of `src/num_cpus_stub.c` (moonbit-num-cpus): a shallow embedding
of `moonbit_get_cpu_count` and `moonbit_get_physical_cpu_count` for each of
the compile-time platform branches, parameterised by the results of the
underlying OS queries.

Modelling conventions:
* Machine integers (`int`, `long`) are modelled as unbounded `Int` except where
  a narrowing conversion is explicit in the source: the cast
  `(int)sysinfo.dwNumberOfProcessors` of a 32-bit unsigned `DWORD` is modelled
  by `int32OfUInt32`, and the cast `(int)cpus` of the `long` `sysconf` result
  is modelled by `int32OfInt` (two's-complement wrap to 32 bits, the behaviour
  of the mainstream implementations where this conversion is
  implementation-defined).  Signed-overflow situations inside the Linux product
  `(max_core_id + 1) * (max_physical_id + 1)` are undefined behaviour in C,
  so the model uses exact integer arithmetic there.
* The `/proc/cpuinfo` stream is modelled as the sequence of chunks returned by
  `fgets` (a list of `List Char`), or `none` when `fopen` fails.
* `sscanf(line, "core id\t\t: %d", &x)` (and the `physical id` variant) is
  modelled by `parseFieldValue`: literal text and whitespace directives in the
  format are matched as C's `sscanf` matches them, and `%d` consumes optional
  whitespace, an optional sign and at least one digit.  On failure the target
  variable is left unchanged, exactly as in the C code (the return value of
  `sscanf` is ignored there).
* The Windows `SYSTEM_LOGICAL_PROCESSOR_INFORMATION` buffer is modelled as the
  list of relationship records it holds; `returnLength` is
  `winRecSize * (number of records)`, matching the API contract that the
  reported byte length is a whole number of records, and the byte-offset loop
  of the source then visits each record exactly once.
-/

/-- The mutually exclusive compile-time platform branches of the source file:
`_WIN32`; `__APPLE__`; `__linux__`; other `__unix__`/`__unix`; and the final
fallback branch for unknown platforms. -/
inductive Platform where
  | windows
  | macos
  | linux
  | unixOther
  | unknown
deriving DecidableEq, Repr

/-- The `LOGICAL_PROCESSOR_RELATIONSHIP` values a Windows record can carry. -/
inductive WinRelationship where
  | processorCore
  | numaNode
  | cache
  | processorPackage
  | group
deriving DecidableEq, Repr

/-- Results of every OS query the source file can issue, fixed for the whole
run: the embedding's functions are functions of this environment. -/
structure Env where
  /-- `sysinfo.dwNumberOfProcessors` filled in by `GetSystemInfo` (a `DWORD`,
  i.e. an unsigned 32-bit value, here an arbitrary `Nat` reduced mod `2^32`
  at the cast). -/
  winProcs : Nat
  /-- The records of the logical-processor-information table reported by
  `GetLogicalProcessorInformation`. -/
  winRecords : List WinRelationship
  /-- Whether `malloc(returnLength)` succeeds. -/
  winMallocOk : Bool
  /-- Whether the second, data-fetching call to
  `GetLogicalProcessorInformation` succeeds. -/
  winFetchOk : Bool
  /-- Whether `sysctlbyname("hw.physicalcpu", ...)` returns 0 (success). -/
  macSysctlOk : Bool
  /-- The value `sysctlbyname` stores into `physical_cpus` on success. -/
  macPhysCpus : Int
  /-- The result of `sysconf(_SC_NPROCESSORS_ONLN)` (a `long`; negative on
  failure). -/
  sysconfCpus : Int
  /-- The `/proc/cpuinfo` contents as the chunks successively returned by
  `fgets`, or `none` when `fopen` returns `NULL`. -/
  cpuinfo : Option (List (List Char))

/-- Reinterpretation of an unsigned 32-bit value as a signed 32-bit `int`,
modelling the cast `(int)sysinfo.dwNumberOfProcessors`. -/
def int32OfUInt32 (n : Nat) : Int :=
  if n % 2 ^ 32 < 2 ^ 31 then ((n % 2 ^ 32 : Nat) : Int)
  else ((n % 2 ^ 32 : Nat) : Int) - 2 ^ 32

/-- Narrowing of a wider signed value to a signed 32-bit `int` by
two's-complement wrap, modelling the cast `(int)cpus` of the `long` `sysconf`
result (`Int.emod` by `2 ^ 32` yields the value's low 32 bits). -/
def int32OfInt (x : Int) : Int :=
  if x % 2 ^ 32 < 2 ^ 31 then x % 2 ^ 32 else x % 2 ^ 32 - 2 ^ 32

/-- C's `isspace` in the default locale: the character classes `sscanf`'s
whitespace directives and `%d` skip over. -/
def isWsChar (c : Char) : Bool :=
  c = ' ' || c.toNat = 9 || c.toNat = 10 || c.toNat = 11 || c.toNat = 12 || c.toNat = 13

/-- Drop a (possibly empty) run of whitespace, as a whitespace directive in a
`scanf` format does. -/
def skipWs : List Char → List Char
  | [] => []
  | c :: cs => if isWsChar c then skipWs cs else c :: cs

/-- Parse a nonempty run of decimal digits; `none` when the input does not
start with a digit. -/
def parseNat (l : List Char) : Option Nat :=
  let ds := l.takeWhile (fun c => c.isDigit)
  if ds.isEmpty then none
  else some (ds.foldl (fun a c => 10 * a + (c.toNat - 48)) 0)

/-- The body of `%d` after its implicit whitespace skip: an optional sign
followed by at least one digit. -/
def parseIntToken : List Char → Option Int
  | '-' :: rest => (parseNat rest).map (fun n => -(n : Int))
  | '+' :: rest => (parseNat rest).map (fun n => (n : Int))
  | l => (parseNat l).map (fun n => (n : Int))

/-- `sscanf` matching of the format tail after the fixed field-name prefix:
whitespace directives, the literal `:`, a whitespace directive, then `%d`
(which itself skips whitespace).  Returns `none` exactly when `sscanf` stops
before converting `%d`, in which case the C code leaves the target variable
unchanged. -/
def parseFieldValue (rest : List Char) : Option Int :=
  match skipWs rest with
  | ':' :: r => parseIntToken (skipWs r)
  | _ => none

/-- The local variables of the `__linux__` branch of
`moonbit_get_physical_cpu_count` that survive across loop iterations. -/
structure LinuxParseState where
  core_id : Int
  physical_id : Int
  max_core_id : Int
  max_physical_id : Int
deriving DecidableEq, Repr

/-- Their initialisation: `core_id = physical_id = max_core_id =
max_physical_id = -1`. -/
def linuxInitState : LinuxParseState :=
  { core_id := -1, physical_id := -1, max_core_id := -1, max_physical_id := -1 }

/-- `strncmp(line, "core id", 7) == 0`. -/
def isCoreIdLine (line : List Char) : Bool :=
  "core id".data.isPrefixOf line

/-- `strncmp(line, "physical id", 11) == 0`. -/
def isPhysicalIdLine (line : List Char) : Bool :=
  "physical id".data.isPrefixOf line

/-- One iteration of the `fgets` loop: the two `strncmp` prefix tests, the
corresponding `sscanf` (whose failure leaves the old value in place), and the
max update.  For a line guaranteed by `strncmp` to start with the field name,
`sscanf`'s literal/whitespace matching of the format's prefix consumes exactly
those characters, so the conversion reduces to `parseFieldValue` on the rest
of the line. -/
def lineStep (s : LinuxParseState) (line : List Char) : LinuxParseState :=
  if isCoreIdLine line then
    let c := (parseFieldValue (line.drop 7)).getD s.core_id
    { s with
      core_id := c
      max_core_id := if c > s.max_core_id then c else s.max_core_id }
  else if isPhysicalIdLine line then
    let p := (parseFieldValue (line.drop 11)).getD s.physical_id
    { s with
      physical_id := p
      max_physical_id := if p > s.max_physical_id then p else s.max_physical_id }
  else s

/-- The state after the whole `fgets` loop. -/
def linuxParse (lines : List (List Char)) : LinuxParseState :=
  lines.foldl lineStep linuxInitState

/-- `moonbit_get_cpu_count`, by platform branch. -/
def moonbit_get_cpu_count (p : Platform) (e : Env) : Int :=
  match p with
  | .windows => int32OfUInt32 e.winProcs
  | .macos | .linux | .unixOther =>
      if e.sysconfCpus < 1 then 1 else int32OfInt e.sysconfCpus
  | .unknown => 1

/-- Number of records of the table whose `Relationship` is
`RelationProcessorCore`: what the byte-offset loop of the Windows branch
counts into `physicalCores`. -/
def winCoreCount (e : Env) : Nat :=
  e.winRecords.countP (fun r => r = WinRelationship.processorCore)

/-- The byte size `sizeof(SYSTEM_LOGICAL_PROCESSOR_INFORMATION)`; any positive
constant works, the value below is the 64-bit layout's. -/
def winRecSize : Nat := 32

/-- `returnLength` as produced by the first `GetLogicalProcessorInformation`
call: the byte size of the table. -/
def winReturnLength (e : Env) : Nat :=
  winRecSize * e.winRecords.length

/-- The `_WIN32` branch of `moonbit_get_physical_cpu_count`. -/
def winPhysicalCount (e : Env) : Int :=
  if winReturnLength e = 0 then moonbit_get_cpu_count .windows e
  else if e.winMallocOk = false then moonbit_get_cpu_count .windows e
  else if e.winFetchOk = false then moonbit_get_cpu_count .windows e
  else if (winCoreCount e : Int) > 0 then (winCoreCount e : Int)
  else moonbit_get_cpu_count .windows e

/-- The `__APPLE__` branch of `moonbit_get_physical_cpu_count`. -/
def macPhysicalCount (e : Env) : Int :=
  if e.macSysctlOk then
    if e.macPhysCpus > 0 then e.macPhysCpus else moonbit_get_cpu_count .macos e
  else moonbit_get_cpu_count .macos e

/-- The `__linux__` branch of `moonbit_get_physical_cpu_count`. -/
def linuxPhysicalCount (e : Env) : Int :=
  match e.cpuinfo with
  | none => moonbit_get_cpu_count .linux e
  | some lines =>
      let s := linuxParse lines
      if s.max_core_id ≥ 0 ∧ s.max_physical_id ≥ 0 then
        let physical_cpus := (s.max_core_id + 1) * (s.max_physical_id + 1)
        if physical_cpus > 0 then physical_cpus else moonbit_get_cpu_count .linux e
      else moonbit_get_cpu_count .linux e

/-- `moonbit_get_physical_cpu_count`, by platform branch. -/
def moonbit_get_physical_cpu_count (p : Platform) (e : Env) : Int :=
  match p with
  | .windows => winPhysicalCount e
  | .macos => macPhysicalCount e
  | .linux => linuxPhysicalCount e
  | .unixOther => moonbit_get_cpu_count .unixOther e
  | .unknown => 1

/-- A call to `moonbit_get_cpu_count` as a state transformer: the C function
writes only call-local variables, so the observable state (the environment of
OS query results) is returned unchanged. -/
def callLogical (p : Platform) (e : Env) : Int × Env :=
  (moonbit_get_cpu_count p e, e)

/-- A call to `moonbit_get_physical_cpu_count` as a state transformer: every
exit path of the C function frees its scratch buffer and writes no non-local
state, so the observable state is returned unchanged. -/
def callPhysical (p : Platform) (e : Env) : Int × Env :=
  (moonbit_get_physical_cpu_count p e, e)

/-! ### Concrete environments and descriptor tables used in the theorems -/

/-- A baseline environment: 4 Windows processors, empty Windows table, a
successful macOS `sysctl` reporting 4, `sysconf` reporting 7, no
`/proc/cpuinfo`. -/
def envBase : Env :=
  { winProcs := 4, winRecords := [], winMallocOk := true, winFetchOk := true,
    macSysctlOk := true, macPhysCpus := 4, sysconfCpus := 7, cpuinfo := none }

/-- A Windows environment whose processor query reports 0 processors. -/
def envWin0 : Env := { envBase with winProcs := 0 }

/-- The two-entry descriptor table of the spec's first Linux scenario:
`physical id: 0`/`core id: 0` and `physical id: 0`/`core id: 1`. -/
def tbl2 : List (List Char) :=
  ["physical id\t: 0\n".data, "core id\t\t: 0\n".data,
   "physical id\t: 0\n".data, "core id\t\t: 1\n".data]

/-- The four-entry descriptor table of the spec's second Linux scenario:
`physical id` values `{0, 1}`, `core id` values `{0, 1}` for each. -/
def tbl4 : List (List Char) :=
  ["physical id\t: 0\n".data, "core id\t\t: 0\n".data,
   "physical id\t: 0\n".data, "core id\t\t: 1\n".data,
   "physical id\t: 1\n".data, "core id\t\t: 0\n".data,
   "physical id\t: 1\n".data, "core id\t\t: 1\n".data]

/-- A descriptor table carrying a `core id` entry but no `physical id`
entry. -/
def tblCoreOnly : List (List Char) :=
  ["core id\t\t: 0\n".data]

def env2 : Env := { envBase with cpuinfo := some tbl2 }

def env4 : Env := { envBase with cpuinfo := some tbl4 }

def envCoreOnly : Env := { envBase with cpuinfo := some tblCoreOnly }

/-- A Linux environment whose `sysconf` query fails. -/
def envSysconfNeg : Env := { envBase with sysconfCpus := -3 }

/-- A Unix environment whose `sysconf` query reports `2^31` processors, a
`long` value the `(int)cpus` narrowing wraps to `-2^31`. -/
def envSysconfHuge : Env := { envBase with sysconfCpus := 2 ^ 31 }

/-- A Windows environment whose table holds one record, not a processor-core
one. -/
def envC6 : Env := { envBase with winRecords := [WinRelationship.cache] }

/-- A Windows environment whose table holds two processor-core records and one
cache record. -/
def envC7 : Env :=
  { envBase with
    winRecords := [WinRelationship.processorCore, WinRelationship.cache,
                   WinRelationship.processorCore] }

/-- A macOS environment whose `sysctl` query fails. -/
def envMacFail : Env := { envBase with macSysctlOk := false }

/-- A well-parsed `core id` line carrying the value 5. -/
def coreLine5 : List Char := "core id\t\t: 5\n".data

/-- A line that passes the `strncmp(line, "core id", 7)` test but from which
`sscanf` extracts no integer. -/
def coreJunkLine : List Char := "core id, but junk\n".data

/-! ### Helper lemmas -/

lemma logical_macos_ge_one (e : Env) (h : e.sysconfCpus < 2 ^ 31) :
    1 ≤ moonbit_get_cpu_count Platform.macos e := by
  simp only [moonbit_get_cpu_count, int32OfInt]
  split
  · omega
  · split <;> omega

lemma logical_linux_eq_macos (e : Env) :
    moonbit_get_cpu_count Platform.linux e = moonbit_get_cpu_count Platform.macos e := rfl

lemma logical_unixOther_eq_macos (e : Env) :
    moonbit_get_cpu_count Platform.unixOther e = moonbit_get_cpu_count Platform.macos e := rfl

lemma windows_logical_of_bounds (e : Env) (h1 : 1 ≤ e.winProcs)
    (h2 : e.winProcs < 2 ^ 31) :
    1 ≤ moonbit_get_cpu_count Platform.windows e := by
  have hm : e.winProcs % 2 ^ 32 = e.winProcs := Nat.mod_eq_of_lt (by omega)
  simp only [moonbit_get_cpu_count, int32OfUInt32, hm]
  rw [if_pos h2]
  exact_mod_cast h1

lemma linuxPhysical_fallback_none (e : Env) (h : e.cpuinfo = none) :
    moonbit_get_physical_cpu_count Platform.linux e = moonbit_get_cpu_count Platform.linux e := by
  simp [moonbit_get_physical_cpu_count, linuxPhysicalCount, h]

lemma linuxPhysical_fallback_unset (e : Env) (lines : List (List Char))
    (h : e.cpuinfo = some lines)
    (hu : (linuxParse lines).max_core_id < 0 ∨ (linuxParse lines).max_physical_id < 0) :
    moonbit_get_physical_cpu_count Platform.linux e = moonbit_get_cpu_count Platform.linux e := by
  simp only [moonbit_get_physical_cpu_count, linuxPhysicalCount, h]
  rw [if_neg]
  omega

lemma linuxPhysical_product (e : Env) (lines : List (List Char))
    (h : e.cpuinfo = some lines)
    (hc : 0 ≤ (linuxParse lines).max_core_id)
    (hp : 0 ≤ (linuxParse lines).max_physical_id) :
    moonbit_get_physical_cpu_count Platform.linux e =
      ((linuxParse lines).max_core_id + 1) * ((linuxParse lines).max_physical_id + 1) := by
  have hpos : 0 < ((linuxParse lines).max_core_id + 1) * ((linuxParse lines).max_physical_id + 1) :=
    mul_pos (by omega) (by omega)
  simp only [moonbit_get_physical_cpu_count, linuxPhysicalCount, h]
  rw [if_pos ⟨hc, hp⟩, if_pos hpos]

lemma winPhysical_core_pos (e : Env) (h0 : winReturnLength e ≠ 0)
    (hm : e.winMallocOk = true) (hf : e.winFetchOk = true)
    (hc : 0 < winCoreCount e) :
    moonbit_get_physical_cpu_count Platform.windows e = (winCoreCount e : Int) := by
  simp only [moonbit_get_physical_cpu_count, winPhysicalCount, hm, hf]
  rw [if_neg h0, if_neg (by simp), if_neg (by simp), if_pos (by exact_mod_cast hc)]

lemma winPhysical_ge_one (e : Env) (h1 : 1 ≤ e.winProcs) (h2 : e.winProcs < 2 ^ 31) :
    1 ≤ moonbit_get_physical_cpu_count Platform.windows e := by
  have hlog : 1 ≤ moonbit_get_cpu_count Platform.windows e :=
    windows_logical_of_bounds e h1 h2
  simp only [moonbit_get_physical_cpu_count, winPhysicalCount]
  split
  · exact hlog
  split
  · exact hlog
  split
  · exact hlog
  split
  · omega
  · exact hlog

lemma macPhysical_ge_one (e : Env) (h : e.sysconfCpus < 2 ^ 31) :
    1 ≤ moonbit_get_physical_cpu_count Platform.macos e := by
  have hlog : 1 ≤ moonbit_get_cpu_count Platform.macos e := logical_macos_ge_one e h
  simp only [moonbit_get_physical_cpu_count, macPhysicalCount]
  split
  · split
    · omega
    · exact hlog
  · exact hlog

lemma linuxPhysical_ge_one (e : Env) (h : e.sysconfCpus < 2 ^ 31) :
    1 ≤ moonbit_get_physical_cpu_count Platform.linux e := by
  have hlog : 1 ≤ moonbit_get_cpu_count Platform.linux e := logical_macos_ge_one e h
  cases hcp : e.cpuinfo with
  | none => rw [linuxPhysical_fallback_none e hcp]; exact hlog
  | some lines =>
    by_cases hc : 0 ≤ (linuxParse lines).max_core_id
    · by_cases hp : 0 ≤ (linuxParse lines).max_physical_id
      · rw [linuxPhysical_product e lines hcp hc hp]
        have := mul_pos (a := (linuxParse lines).max_core_id + 1)
          (b := (linuxParse lines).max_physical_id + 1) (by omega) (by omega)
        omega
      · rw [linuxPhysical_fallback_unset e lines hcp (Or.inr (by omega))]; exact hlog
    · rw [linuxPhysical_fallback_unset e lines hcp (Or.inl (by omega))]; exact hlog

/-! ### The claims -/

/-- C1: the claim as frozen fails twice.  On the Windows branch the source
returns `(int)sysinfo.dwNumberOfProcessors` without any clamping, so an
environment whose processor query reports 0 processors makes
`logical_count()` return 0.  On the Unix-family branches the final
`return (int)cpus` narrows the `long` `sysconf` result, so a reported `2^31`
wraps to `-2^31`; neither value is clamped to 1. -/
theorem C1_counterexample :
    ¬ 1 ≤ moonbit_get_cpu_count Platform.windows envWin0 ∧
    ¬ 1 ≤ moonbit_get_cpu_count Platform.linux envSysconfHuge := by
  refine ⟨by decide, by decide⟩

/-- C1 (amended): on the Unix-family branches a non-positive `sysconf` result
is clamped to 1, and `logical_count() >= 1` holds whenever the `sysconf`
result is below `2^31` (above that the `(int)cpus` narrowing wraps); the
unknown-platform branch returns exactly 1; on the Windows branch the reported
processor count is returned without clamping, so the result is `>= 1`
whenever the query reports between 1 and `2^31 - 1` processors. -/
theorem C1_logical_count_clamped (e : Env) :
    (e.sysconfCpus < 1 → moonbit_get_cpu_count Platform.linux e = 1) ∧
    (e.sysconfCpus < 2 ^ 31 → 1 ≤ moonbit_get_cpu_count Platform.macos e) ∧
    (e.sysconfCpus < 2 ^ 31 → 1 ≤ moonbit_get_cpu_count Platform.linux e) ∧
    (e.sysconfCpus < 2 ^ 31 → 1 ≤ moonbit_get_cpu_count Platform.unixOther e) ∧
    moonbit_get_cpu_count Platform.unknown e = 1 ∧
    (1 ≤ e.winProcs → e.winProcs < 2 ^ 31 → 1 ≤ moonbit_get_cpu_count Platform.windows e) := by
  refine ⟨?_, fun h => logical_macos_ge_one e h, ?_, ?_, rfl,
    fun h1 h2 => windows_logical_of_bounds e h1 h2⟩
  · intro h
    simp [moonbit_get_cpu_count, h]
  · intro h
    rw [logical_linux_eq_macos]; exact logical_macos_ge_one e h
  · intro h
    rw [logical_unixOther_eq_macos]; exact logical_macos_ge_one e h

/-- C1 witness: the clamping branch at a failing `sysconf`, the in-range Unix
branch at a 7-processor `sysconf` report, and the Windows branch at a
4-processor environment. -/
theorem C1_logical_count_clamped_witness :
    moonbit_get_cpu_count Platform.linux envSysconfNeg = 1 ∧
    1 ≤ moonbit_get_cpu_count Platform.linux envBase ∧
    1 ≤ moonbit_get_cpu_count Platform.windows envBase :=
  ⟨(C1_logical_count_clamped envSysconfNeg).1 (by decide),
   (C1_logical_count_clamped envBase).2.2.1 (by decide),
   (C1_logical_count_clamped envBase).2.2.2.2.2 (by decide) (by decide)⟩

/-- C2: the claim as frozen fails twice.  On the Windows branch, with a
processor query reporting 0 and an empty relationship table, every fallback
path ends in the unclamped logical count, so `physical_count()` returns 0.
On the Linux branch, with an unopenable descriptor source and a `sysconf`
result of `2^31`, the fallback ends in the wrapped `(int)cpus` value
`-2^31`. -/
theorem C2_counterexample :
    ¬ 1 ≤ moonbit_get_physical_cpu_count Platform.windows envWin0 ∧
    ¬ 1 ≤ moonbit_get_physical_cpu_count Platform.linux envSysconfHuge := by
  refine ⟨by decide, by decide⟩

/-- C2 (amended): on the macOS, Linux and other-Unix branches
`physical_count() >= 1` holds for every query outcome whose `sysconf` result
is below `2^31` (above that the fallback paths end in the wrapped `(int)cpus`
value), and the unknown branch returns exactly 1; on the Windows branch it
holds whenever the logical-processor query reports between 1 and `2^31 - 1`
processors, since every error path falls back to the unclamped logical
count. -/
theorem C2_physical_count_ge_one (e : Env) :
    (e.sysconfCpus < 2 ^ 31 → 1 ≤ moonbit_get_physical_cpu_count Platform.macos e) ∧
    (e.sysconfCpus < 2 ^ 31 → 1 ≤ moonbit_get_physical_cpu_count Platform.linux e) ∧
    (e.sysconfCpus < 2 ^ 31 → 1 ≤ moonbit_get_physical_cpu_count Platform.unixOther e) ∧
    moonbit_get_physical_cpu_count Platform.unknown e = 1 ∧
    (1 ≤ e.winProcs → e.winProcs < 2 ^ 31 →
      1 ≤ moonbit_get_physical_cpu_count Platform.windows e) := by
  refine ⟨fun h => macPhysical_ge_one e h, fun h => linuxPhysical_ge_one e h, ?_, rfl,
    fun h1 h2 => winPhysical_ge_one e h1 h2⟩
  intro h
  show 1 ≤ moonbit_get_cpu_count Platform.unixOther e
  rw [logical_unixOther_eq_macos]; exact logical_macos_ge_one e h

/-- C2 witness: the Linux branch at a 7-processor `sysconf` report, and the
Windows branch at a 4-processor environment with an empty table. -/
theorem C2_physical_count_ge_one_witness :
    1 ≤ moonbit_get_physical_cpu_count Platform.linux envBase ∧
    1 ≤ moonbit_get_physical_cpu_count Platform.windows envBase :=
  ⟨(C2_physical_count_ge_one envBase).2.1 (by decide),
   (C2_physical_count_ge_one envBase).2.2.2.2 (by decide) (by decide)⟩

/-- C5: on the unknown-platform branch both `logical_count()` and
`physical_count()` return exactly 1, for every environment. -/
theorem C5_unknown_platform_one (e : Env) :
    moonbit_get_cpu_count Platform.unknown e = 1 ∧
    moonbit_get_physical_cpu_count Platform.unknown e = 1 :=
  ⟨rfl, rfl⟩

/-- C3: the claim as frozen fails: a descriptor table whose only line sets a
`core id` (so `max_core_id` is observed while `max_physical_id` stays unset)
still makes the Linux branch fall back to `logical_count()`, although the
claim's fallback condition (source unopenable, or BOTH maxima unset) does not
hold; the returned value is the logical count, not the claimed product. -/
theorem C3_counterexample :
    envCoreOnly.cpuinfo = some tblCoreOnly ∧
    0 ≤ (linuxParse tblCoreOnly).max_core_id ∧
    moonbit_get_physical_cpu_count Platform.linux envCoreOnly =
      moonbit_get_cpu_count Platform.linux envCoreOnly ∧
    moonbit_get_physical_cpu_count Platform.linux envCoreOnly ≠
      ((linuxParse tblCoreOnly).max_core_id + 1) *
        ((linuxParse tblCoreOnly).max_physical_id + 1) := by
  refine ⟨rfl, by decide, by decide, by decide⟩

/-- C3 (amended): on Linux, `physical_count()` falls back to `logical_count()`
exactly when the descriptor source cannot be opened or AT LEAST ONE of the two
maxima remains unset (negative); when both are observed it returns the product
`(max_core_id + 1) * (max_physical_id + 1)`. -/
theorem C3_linux_fallback_condition (e : Env) :
    (e.cpuinfo = none →
      moonbit_get_physical_cpu_count Platform.linux e =
        moonbit_get_cpu_count Platform.linux e) ∧
    ∀ lines, e.cpuinfo = some lines →
      (((linuxParse lines).max_core_id < 0 ∨ (linuxParse lines).max_physical_id < 0) →
        moonbit_get_physical_cpu_count Platform.linux e =
          moonbit_get_cpu_count Platform.linux e) ∧
      (0 ≤ (linuxParse lines).max_core_id → 0 ≤ (linuxParse lines).max_physical_id →
        moonbit_get_physical_cpu_count Platform.linux e =
          ((linuxParse lines).max_core_id + 1) * ((linuxParse lines).max_physical_id + 1)) := by
  refine ⟨fun h => linuxPhysical_fallback_none e h, fun lines h => ⟨?_, ?_⟩⟩
  · exact fun hu => linuxPhysical_fallback_unset e lines h hu
  · exact fun hc hp => linuxPhysical_product e lines h hc hp

/-- C3 witness: the fallback at an unopenable descriptor source, the fallback
at a core-id-only table, and the product at the two-entry table. -/
theorem C3_linux_fallback_condition_witness :
    moonbit_get_physical_cpu_count Platform.linux envBase =
      moonbit_get_cpu_count Platform.linux envBase ∧
    moonbit_get_physical_cpu_count Platform.linux envCoreOnly =
      moonbit_get_cpu_count Platform.linux envCoreOnly ∧
    moonbit_get_physical_cpu_count Platform.linux env2 =
      ((linuxParse tbl2).max_core_id + 1) * ((linuxParse tbl2).max_physical_id + 1) :=
  ⟨(C3_linux_fallback_condition envBase).1 rfl,
   ((C3_linux_fallback_condition envCoreOnly).2 tblCoreOnly rfl).1 (Or.inr (by decide)),
   ((C3_linux_fallback_condition env2).2 tbl2 rfl).2 (by decide) (by decide)⟩

/-- C4: on Linux, whenever both a core id and a physical id are observed
(both maxima set), `physical_count()` returns
`(max_core_id + 1) * (max_physical_id + 1)`; the spec's two-entry table yields
2 and its four-entry table yields 4. -/
theorem C4_linux_product_formula :
    (∀ (e : Env) (lines : List (List Char)), e.cpuinfo = some lines →
      0 ≤ (linuxParse lines).max_core_id → 0 ≤ (linuxParse lines).max_physical_id →
      moonbit_get_physical_cpu_count Platform.linux e =
        ((linuxParse lines).max_core_id + 1) * ((linuxParse lines).max_physical_id + 1)) ∧
    moonbit_get_physical_cpu_count Platform.linux env2 = 2 ∧
    moonbit_get_physical_cpu_count Platform.linux env4 = 4 :=
  ⟨fun e lines h hc hp => linuxPhysical_product e lines h hc hp, by decide, by decide⟩

/-- C4 witness: the general formula instantiated at the two-entry table. -/
theorem C4_linux_product_formula_witness :
    moonbit_get_physical_cpu_count Platform.linux env2 =
      ((linuxParse tbl2).max_core_id + 1) * ((linuxParse tbl2).max_physical_id + 1) :=
  C4_linux_product_formula.1 env2 tbl2 rfl (by decide) (by decide)

/-- C6: on Windows, a successfully fetched table (nonzero probed length,
successful allocation and fetch) with zero processor-core relationship records
makes `physical_count()` return the value of `logical_count()`, not 0. -/
theorem C6_windows_zero_core_fallback (e : Env) (h0 : winReturnLength e ≠ 0)
    (hm : e.winMallocOk = true) (hf : e.winFetchOk = true)
    (hc : winCoreCount e = 0) :
    moonbit_get_physical_cpu_count Platform.windows e =
      moonbit_get_cpu_count Platform.windows e := by
  simp only [moonbit_get_physical_cpu_count, winPhysicalCount, hm, hf]
  rw [if_neg h0, if_neg (by simp), if_neg (by simp), if_neg (by simp [hc])]

/-- C6 witness: a one-record table holding only a cache record. -/
theorem C6_windows_zero_core_fallback_witness :
    moonbit_get_physical_cpu_count Platform.windows envC6 =
      moonbit_get_cpu_count Platform.windows envC6 ∧
    moonbit_get_physical_cpu_count Platform.windows envC6 ≠ 0 :=
  ⟨C6_windows_zero_core_fallback envC6 (by decide) rfl rfl (by decide), by decide⟩

/-- C7: on Windows, on the successful path with at least one processor-core
record, `physical_count()` returns exactly the number of records whose
relationship type is `RelationProcessorCore`; it falls back to
`logical_count()` when the size probe yields zero length, when allocation of
the scratch buffer fails, and when the data-fetching call fails. -/
theorem C7_windows_core_record_count (e : Env) :
    (winReturnLength e ≠ 0 → e.winMallocOk = true → e.winFetchOk = true →
      0 < winCoreCount e →
      moonbit_get_physical_cpu_count Platform.windows e = (winCoreCount e : Int)) ∧
    (winReturnLength e = 0 →
      moonbit_get_physical_cpu_count Platform.windows e =
        moonbit_get_cpu_count Platform.windows e) ∧
    (winReturnLength e ≠ 0 → e.winMallocOk = false →
      moonbit_get_physical_cpu_count Platform.windows e =
        moonbit_get_cpu_count Platform.windows e) ∧
    (winReturnLength e ≠ 0 → e.winMallocOk = true → e.winFetchOk = false →
      moonbit_get_physical_cpu_count Platform.windows e =
        moonbit_get_cpu_count Platform.windows e) := by
  refine ⟨fun h0 hm hf hc => winPhysical_core_pos e h0 hm hf hc, ?_, ?_, ?_⟩
  · intro h0
    simp only [moonbit_get_physical_cpu_count, winPhysicalCount]
    rw [if_pos h0]
  · intro h0 hm
    simp only [moonbit_get_physical_cpu_count, winPhysicalCount, hm]
    rw [if_neg h0, if_pos trivial]
  · intro h0 hm hf
    simp only [moonbit_get_physical_cpu_count, winPhysicalCount, hm, hf]
    rw [if_neg h0, if_neg (by simp), if_pos trivial]

/-- C7 witness: the counting path at a three-record table with two
processor-core records, and the probe-failure path at an empty table. -/
theorem C7_windows_core_record_count_witness :
    moonbit_get_physical_cpu_count Platform.windows envC7 = (winCoreCount envC7 : Int) ∧
    winCoreCount envC7 = 2 ∧
    moonbit_get_physical_cpu_count Platform.windows envBase =
      moonbit_get_cpu_count Platform.windows envBase :=
  ⟨(C7_windows_core_record_count envC7).1 (by decide) rfl rfl (by decide),
   by decide,
   (C7_windows_core_record_count envBase).2.1 (by decide)⟩

/-- C8: on macOS, a successful `sysctlbyname("hw.physicalcpu", ...)` query
with a positive stored value makes `physical_count()` return that value; a
successful query with a non-positive value, or a failing query, makes it
return `logical_count()`. -/
theorem C8_macos_sysctl (e : Env) :
    (e.macSysctlOk = true → 0 < e.macPhysCpus →
      moonbit_get_physical_cpu_count Platform.macos e = e.macPhysCpus) ∧
    (e.macSysctlOk = true → e.macPhysCpus ≤ 0 →
      moonbit_get_physical_cpu_count Platform.macos e =
        moonbit_get_cpu_count Platform.macos e) ∧
    (e.macSysctlOk = false →
      moonbit_get_physical_cpu_count Platform.macos e =
        moonbit_get_cpu_count Platform.macos e) := by
  refine ⟨?_, ?_, ?_⟩
  · intro hok hpos
    simp only [moonbit_get_physical_cpu_count, macPhysicalCount, hok, if_true]
    rw [if_pos hpos]
  · intro hok hnp
    simp only [moonbit_get_physical_cpu_count, macPhysicalCount, hok, if_true]
    rw [if_neg (by omega)]
  · intro hok
    simp [moonbit_get_physical_cpu_count, macPhysicalCount, hok]

/-- C8 witness: the positive-value path at a 4-core report and the failing
query path. -/
theorem C8_macos_sysctl_witness :
    moonbit_get_physical_cpu_count Platform.macos envBase = envBase.macPhysCpus ∧
    moonbit_get_physical_cpu_count Platform.macos envMacFail =
      moonbit_get_cpu_count Platform.macos envMacFail :=
  ⟨(C8_macos_sysctl envBase).1 rfl (by decide),
   (C8_macos_sysctl envMacFail).2.2 rfl⟩

/-- C9: with the OS query results fixed, both operations are deterministic
and effect-free: a call leaves the observable state unchanged, and a second
call on the state left by the first returns the same value. -/
theorem C9_deterministic_calls (p : Platform) (e : Env) :
    (callLogical p e).1 = (callLogical p (callLogical p e).2).1 ∧
    (callLogical p e).2 = e ∧
    (callPhysical p e).1 = (callPhysical p (callPhysical p e).2).1 ∧
    (callPhysical p e).2 = e :=
  ⟨rfl, rfl, rfl, rfl⟩

/-- C10: in the Linux parser, a line that passes the field-name `strncmp` test
but from which `sscanf` extracts no integer leaves the field variable at its
previous value (initially the sentinel -1) and re-runs the maximum comparison
with that old value; concretely, after a parsable `core id: 5` line an
unparsable `core id` line re-contributes 5 (leaving the state unchanged), and
an unparsable `core id` line before any successful parse leaves the whole
state at its initialisation. -/
theorem C10_unparsable_line_reuses_value :
    (∀ (s : LinuxParseState) (line : List Char),
      isCoreIdLine line = true → parseFieldValue (line.drop 7) = none →
      lineStep s line =
        { s with
          max_core_id := if s.core_id > s.max_core_id then s.core_id else s.max_core_id }) ∧
    (∀ (s : LinuxParseState) (line : List Char),
      isCoreIdLine line = false → isPhysicalIdLine line = true →
      parseFieldValue (line.drop 11) = none →
      lineStep s line =
        { s with
          max_physical_id :=
            if s.physical_id > s.max_physical_id then s.physical_id
            else s.max_physical_id }) ∧
    linuxParse [coreLine5, coreJunkLine] =
      { core_id := 5, physical_id := -1, max_core_id := 5, max_physical_id := -1 } ∧
    linuxParse [coreJunkLine] = linuxInitState := by
  refine ⟨?_, ?_, by decide, by decide⟩
  · intro s line hpre hparse
    simp [lineStep, hpre, hparse]
  · intro s line hc hp hparse
    simp [lineStep, hc, hp, hparse]

/-- C10 witness: the general step property at the state left by a parsed
`core id: 5` line and an unparsable `core id` line. -/
theorem C10_unparsable_line_reuses_value_witness :
    lineStep { core_id := 5, physical_id := -1, max_core_id := 5, max_physical_id := -1 }
        coreJunkLine =
      { core_id := 5, physical_id := -1, max_core_id := 5, max_physical_id := -1 } :=
  (C10_unparsable_line_reuses_value.1
      { core_id := 5, physical_id := -1, max_core_id := 5, max_physical_id := -1 }
      coreJunkLine (by decide) (by decide)).trans (by decide)
